import Mathlib

/-!
# Verification of the Digital-Signage-v3 sync and rotation engine

A shallow embedding, in Lean 4, of the content-synchronization and
playback-rotation code of the NetSteady/Digital-Signage-v3 repository:

* `Api` — `src/services/Api.ts`: schedule-based playlist selection
  (`isPlaylistActive`, `fetchPlaylist`) and asset filtering/sorting.
* `Downloader` — `src/services/AssetDownloader.ts`: the asset cache
  (`clearCache`, `saveCacheManifest`, `getCachedAssets`, `downloadAssets`),
  modelled over an explicit store with fault injection for the
  filesystem primitives.
* `Display` — `src/components/SignageDisplay.tsx`: the sync cycle
  (`loadContent`) with change detection (`assetsAreEqual`).
* `Dedup` — the download de-duplication queue of the legacy monolithic
  variant (`downloadAndCacheAsset` in `src/unnamed/part_003`), as an
  interleaved two-caller transition system.
* `Rotation` — the timer-driven rotation loop of the HTML generated by
  `createHTMLWithData` (`scheduleNext` / `rotateToNext`).

JavaScript primitives used by the code (string `parseInt`, `split(", ")`,
lexicographic string `<`, truthiness of optional strings) are modelled
explicitly so that every definition is executable by the kernel.
-/

deriving instance DecidableEq for Except

/-! ## Models of the JavaScript primitives -/

/-- Digit accumulation for `jsParseInt`. -/
def digitsVal : List Char → Nat → Nat
  | [], acc => acc
  | c :: cs, acc => digitsVal cs (acc * 10 + (c.toNat - '0'.toNat))

/-- Whitespace skipped by JavaScript `parseInt`. -/
def jsIsSpace (c : Char) : Bool :=
  c = ' ' || c = '\t' || c = '\n' || c = '\r'

/-- Model of JavaScript `parseInt(s)` (radix 10, decimal input): skip leading
whitespace, read an optional sign, then the longest leading run of decimal
digits; no digits means `NaN`, modelled as `none`.  (The `0x` auto-radix of
`parseInt` is irrelevant to the decimal durations and orders of the payload
and is not modelled.) -/
def jsParseInt (s : String) : Option Int :=
  let cs := s.data.dropWhile jsIsSpace
  let (neg, rest) :=
    match cs with
    | '-' :: r => (true, r)
    | '+' :: r => (false, r)
    | r => (false, r)
  let digits := rest.takeWhile Char.isDigit
  if digits.isEmpty then none
  else
    let v : Int := Int.ofNat (digitsVal digits 0)
    some (if neg then -v else v)

/-- Model of the JavaScript idiom `x || d` on an optional string field:
`undefined` and the empty string are falsy. -/
def jsOr (o : Option String) (d : String) : String :=
  match o with
  | none => d
  | some s => if s = "" then d else s

/-- Truthiness of an optional string field (`undefined` and `""` are falsy). -/
def jsTruthy (o : Option String) : Bool :=
  match o with
  | none => false
  | some s => !(s = "")

/-- Lexicographic order on character lists, by code point — the order
JavaScript `<` uses on (ASCII) strings. -/
def charListLt : List Char → List Char → Bool
  | [], [] => false
  | [], _ :: _ => true
  | _ :: _, [] => false
  | a :: as, b :: bs =>
    if a.toNat < b.toNat then true
    else if b.toNat < a.toNat then false
    else charListLt as bs

/-- Model of JavaScript string `<` (lexicographic by code unit; identical to
code-point order on the ASCII `HH:MM:SS` strings compared by the code). -/
def jsStrLt (s t : String) : Bool := charListLt s.data t.data

/-- Splitter for JavaScript `s.split(", ")` (leftmost-match, two-character
separator), on character lists. -/
def splitCommaSpace : List Char → List Char → List (List Char)
  | [], acc => [acc]
  | [c], acc => [acc.concat c]
  | c1 :: c2 :: rest, acc =>
    if c1 = ',' && c2 = ' ' then acc :: splitCommaSpace rest []
    else splitCommaSpace (c2 :: rest) (acc.concat c1)

/-- Model of JavaScript `s.split(", ")`. -/
def jsSplitCommaSpace (s : String) : List String :=
  (splitCommaSpace s.data []).map List.asString

namespace Api

/-- Embedding of `Asset` from `src/services/Api.ts`: the raw payload shape.  The optional
`id` is never read by the engine and is omitted.  `filepath`, `filetype` and
`time` are required strings in the interface; a missing value arrives as a
falsy value, modelled as `""`. -/
structure Asset where
  filepath : String
  filetype : String
  time : String
  name : Option String := none
  playing_order : Option String := none
deriving DecidableEq, Repr

/-- Embedding of `Playlist` from `src/services/Api.ts`. -/
structure Playlist where
  id : Option String := none
  name : Option String := none
  starttime : Option String := none
  endtime : Option String := none
  startdate : Option String := none
  enddate : Option String := none
  weekdays : Option String := none
  is_default : Bool := false
  assets : List Asset
deriving DecidableEq, Repr

/-- Embedding of `ApiResponse` from `src/services/Api.ts`: `playlists` missing and
`playlists` empty are both rejected by `fetchPlaylist`, so both are modelled
as `[]`.  `functions?.is_restarting` is a truthy flag. -/
structure ApiResponse where
  playlists : List Playlist
  is_restarting : Bool := false
deriving DecidableEq, Repr

/-- The aspects of the JavaScript `Date` value `now` that
`isPlaylistActive` reads: `getTime()`, the short and long `en-US` weekday
names, and `toTimeString().slice(0, 8)` (zero-padded `HH:MM:SS`). -/
structure NowCtx where
  epochMs : Int
  weekdayShort : String
  weekdayLong : String
  timeString : String
deriving DecidableEq, Repr

/-- The short-to-long weekday `dayMap` of `isPlaylistActive`. -/
def dayMap (s : String) : Option String :=
  if s = "Mon" then some "Monday"
  else if s = "Tue" then some "Tuesday"
  else if s = "Wed" then some "Wednesday"
  else if s = "Thu" then some "Thursday"
  else if s = "Fri" then some "Friday"
  else if s = "Sat" then some "Saturday"
  else if s = "Sun" then some "Sunday"
  else none

/-- The date-range check of `isPlaylistActive` (lines 40–56): when a start
or end date is present, the current timestamp must not lie before the parsed
start nor after the parsed end. -/
def dateCheck (pd : String → Int) (p : Playlist) (now : NowCtx) : Bool :=
  if jsTruthy p.startdate || jsTruthy p.enddate then
    (if jsTruthy p.startdate then
       !(now.epochMs < pd (p.startdate.getD "")) else true) &&
    (if jsTruthy p.enddate then
       !(pd (p.enddate.getD "") < now.epochMs) else true)
  else true

/-- The weekday check of `isPlaylistActive` (lines 59–81): split `weekdays`
on `", "` and look for an entry equal to the short weekday name, or whose
`dayMap` image is the long weekday name. -/
def weekdayCheck (p : Playlist) (now : NowCtx) : Bool :=
  if jsTruthy p.weekdays then
    (jsSplitCommaSpace (p.weekdays.getD "")).any fun day =>
      day == now.weekdayShort || dayMap day == some now.weekdayLong
  else true

/-- The time-of-day check of `isPlaylistActive` (lines 84–94): `HH:MM:SS`
string comparison against the present bounds. -/
def timeCheck (p : Playlist) (now : NowCtx) : Bool :=
  if jsTruthy p.starttime || jsTruthy p.endtime then
    (if jsTruthy p.starttime then
       !(jsStrLt now.timeString (p.starttime.getD "")) else true) &&
    (if jsTruthy p.endtime then
       !(jsStrLt (p.endtime.getD "") now.timeString) else true)
  else true

/-- Embedding of `isPlaylistActive` from `src/services/Api.ts` (lines 30–97).  Date
strings are turned into timestamps by `new Date(s).getTime()`, modelled by
the parameter `pd`.  The three checks appear in the source order: date
range, then weekday, then time-of-day (each check short-circuits by
returning `false`; the conjunction is its extensional content). -/
def isPlaylistActive (pd : String → Int) (p : Playlist) (now : NowCtx) : Bool :=
  if p.is_default then true
  else dateCheck pd p now && weekdayCheck p now && timeCheck p now

/-- The predicate of the first `find` in `fetchPlaylist`:
`!playlist.is_default && isPlaylistActive(playlist, now)`. -/
def activeNonDefault (pd : String → Int) (now : NowCtx) (p : Playlist) : Bool :=
  !p.is_default && isPlaylistActive pd p now

/-- The playlist-selection step of `fetchPlaylist` (lines 122–133):
first active non-default playlist, else first playlist flagged default,
else `playlists[0]`. -/
def selectedPlaylist (pd : String → Int) (now : NowCtx) :
    List Playlist → Option Playlist
  | [] => none
  | p0 :: rest =>
    match (p0 :: rest).find? (activeNonDefault pd now) with
    | some p => some p
    | none =>
      match (p0 :: rest).find? (fun p => p.is_default) with
      | some p => some p
      | none => some p0

/-- The asset filter of `fetchPlaylist` (line 143):
`asset.filepath && asset.time && parseInt(asset.time) > 0`. -/
def validAsset (a : Asset) : Bool :=
  !(a.filepath = "") && !(a.time = "") &&
    (match jsParseInt a.time with
     | some n => decide (0 < n)
     | none => false)

/-- The sort key of `fetchPlaylist` (line 147):
`parseInt(asset.playing_order || "0")`.  When `playing_order` is present but
unparsable the JavaScript comparator returns `NaN` (treated as `+0` by
`SortCompare`, making the comparator inconsistent and the order
implementation-defined); theorems about the order therefore assume every
`playing_order` parses.  A missing or empty `playing_order` is `"0"`,
i.e. key `0`. -/
def playingOrderKey (a : Asset) : Int :=
  (jsParseInt (jsOr a.playing_order "0")).getD 0

/-- The order realised by `Array.prototype.sort` with the comparator
`(a, b) => key a - key b`: for a consistent comparator ECMA-262 specifies the
unique stable result, i.e. the list ordered by `(key, original index)`.  The
embedding sorts index-decorated assets by that total lexicographic order. -/
def sortLe (p q : Nat × Asset) : Prop :=
  playingOrderKey p.2 < playingOrderKey q.2 ∨
    (playingOrderKey p.2 = playingOrderKey q.2 ∧ p.1 ≤ q.1)

instance : DecidableRel sortLe := fun p q => by
  unfold sortLe; infer_instance

instance : IsTotal (Nat × Asset) sortLe := by
  constructor
  intro p q
  rcases lt_trichotomy (playingOrderKey p.2) (playingOrderKey q.2) with h | h | h
  · exact Or.inl (Or.inl h)
  · rcases Nat.le_total p.1 q.1 with h1 | h1
    · exact Or.inl (Or.inr ⟨h, h1⟩)
    · exact Or.inr (Or.inr ⟨h.symm, h1⟩)
  · exact Or.inr (Or.inl h)

instance : IsTrans (Nat × Asset) sortLe := by
  constructor
  intro p q r hpq hqr
  rcases hpq with h | ⟨he, hi⟩
  · rcases hqr with h2 | ⟨he2, _⟩
    · exact Or.inl (h.trans h2)
    · exact Or.inl (he2 ▸ h)
  · rcases hqr with h2 | ⟨he2, hi2⟩
    · exact Or.inl (he ▸ h2)
    · exact Or.inr ⟨he.trans he2, Nat.le_trans hi hi2⟩

/-- The index-decorated sorted list underlying `sortAssets` (kept as its own
definition so that stability — equal keys keep their original relative
positions — can be stated over the indices). -/
def sortedEnum (l : List Asset) : List (Nat × Asset) :=
  (l.enum).insertionSort sortLe

/-- The sorting step of `fetchPlaylist` (lines 145–148): stable sort by
`playingOrderKey` ascending. -/
def sortAssets (l : List Asset) : List Asset :=
  (sortedEnum l).map Prod.snd

/-- The asset-processing tail of `fetchPlaylist` (lines 141–148):
filter the winning playlist's assets, then stable-sort by playing order. -/
def processAssets (l : List Asset) : List Asset :=
  sortAssets (l.filter validAsset)

/-- Claim wording for C3: when a start or end date is set, `now` lies within
the inclusive interval `[startDate, endDate]` of parsed date values
(`new Date(s).getTime()`, the parameter `pd`); a missing bound is
unbounded. -/
def specDateWindow (pd : String → Int) (p : Playlist) (now : NowCtx) : Prop :=
  (jsTruthy p.startdate = true → pd (p.startdate.getD "") ≤ now.epochMs) ∧
  (jsTruthy p.enddate = true → now.epochMs ≤ pd (p.enddate.getD ""))

/-- Claim wording for C3: when a weekday set is given, `now`'s weekday is a
member of that set (the comma-space-separated canonical short names the
payload uses). -/
def specWeekdayOk (p : Playlist) (now : NowCtx) : Prop :=
  jsTruthy p.weekdays = true →
    now.weekdayShort ∈ jsSplitCommaSpace (p.weekdays.getD "")

/-- Claim wording for C3: when start or end times are set, `now`'s
time-of-day, compared as a zero-padded `HH:MM:SS` string, lies within the
inclusive interval `[startTime, endTime]` (`jsStrLt x y = false` is
`y ≤ x` in string order). -/
def specTimeWindow (p : Playlist) (now : NowCtx) : Prop :=
  (jsTruthy p.starttime = true →
    jsStrLt now.timeString (p.starttime.getD "") = false) ∧
  (jsTruthy p.endtime = true →
    jsStrLt (p.endtime.getD "") now.timeString = false)

/-- Claim wording for C4: the asset's duration is present, parses, and is
positive. -/
def specDurationValid (a : Asset) : Prop :=
  ∃ n, jsParseInt a.time = some n ∧ 0 < n

/-- Claim wording for C4: the assets removed by resolution — filepath
missing, or duration missing, unparsable, or non-positive. -/
def specRemoved (a : Asset) : Prop :=
  a.filepath = "" ∨ a.time = "" ∨ ¬ specDurationValid a

/-- Failure of `fetchPlaylist` before a playlist is selected
(`"No playlists found"`). -/
inductive FetchErr where
  | noPlaylists
deriving DecidableEq, Repr

/-- The pure content of `fetchPlaylist` from `src/services/Api.ts`
(lines 99–153), from the parsed response body on: reject an absent or empty
`playlists`, select the playlist, filter and sort its assets.  (Transport —
the HTTP request and `response.ok` check — is outside the model; a non-2xx
response never reaches this point.) -/
def fetchPlaylistResult (pd : String → Int) (now : NowCtx)
    (resp : ApiResponse) : Except FetchErr (List Asset) :=
  match resp.playlists with
  | [] => .error .noPlaylists
  | p0 :: rest =>
    let chosen := (selectedPlaylist pd now (p0 :: rest)).getD p0
    .ok (processAssets chosen.assets)

end Api

namespace Downloader

/-- The `type` field of `LocalAsset` in `src/services/AssetDownloader.ts`. -/
inductive ContentKind where
  | image
  | video
  | web
deriving DecidableEq, Repr

/-- Embedding of `LocalAsset` from `src/services/AssetDownloader.ts`.  `duration` is
`parseInt(time)`; `none` models `NaN`. -/
structure LocalAsset where
  type : ContentKind
  url : String
  duration : Option Int
  name : Option String := none
deriving DecidableEq, Repr

/-- Embedding of `CacheManifest` from `src/services/AssetDownloader.ts`. -/
structure ManifestData where
  assets : List LocalAsset
  timestamp : Int
  deviceName : String
deriving DecidableEq, Repr

/-- The content of `manifest.json` on disk: either a well-formed manifest or
bytes `JSON.parse` rejects. -/
inductive ManifestFile where
  | wellFormed (m : ManifestData)
  | corrupt
deriving DecidableEq, Repr

/-- The persistent state the asset cache touches: the cache directory, the
manifest file inside it, the set of downloaded media files, plus a clock for
`Date.now()` and a counter of download attempts (observability only). -/
structure Store where
  cacheDir : Bool
  manifest : Option ManifestFile
  files : List String
  clock : Int
  dlCount : Nat := 0
deriving DecidableEq, Repr

/-- Fault injection for the filesystem primitives: each kind of operation
either succeeds or raises, and a download can fail per source path.  A
raising operation leaves the store unchanged. -/
structure Faults where
  getInfo : Bool := false
  delete : Bool := false
  mkdir : Bool := false
  write : Bool := false
  read : Bool := false
  download : String → Bool := fun _ => false

/-- Asynchronous filesystem computations: fault environment and store in,
store and normal-or-raised result out (a raised result models a rejected
promise). -/
def FsM (α : Type) : Type := Faults → Store → Store × Except Unit α

instance instMonadFsM : Monad FsM where
  pure a := fun _ s => (s, .ok a)
  bind x f := fun fl s =>
    match x fl s with
    | (s1, .ok a) => f a fl s1
    | (s1, .error e) => (s1, .error e)

/-- Model of `throw` — a rejected promise. -/
def throwFs {α : Type} : FsM α := fun _ s => (s, .error ())

/-- Model of `try … catch …`. -/
def tryCatchFs {α : Type} (x h : FsM α) : FsM α := fun fl s =>
  match x fl s with
  | (s1, .error _) => h fl s1
  | r => r

/-- Model of `FileSystem.getInfoAsync(CACHE_DIR)`. -/
def fsGetInfoDir : FsM Bool := fun fl s =>
  if fl.getInfo then (s, .error ()) else (s, .ok s.cacheDir)

/-- Model of `FileSystem.getInfoAsync(CACHE_MANIFEST_FILE)`. -/
def fsGetInfoManifest : FsM Bool := fun fl s =>
  if fl.getInfo then (s, .error ()) else (s, .ok s.manifest.isSome)

/-- Model of `FileSystem.getInfoAsync(url)` for a cached media file. -/
def fsGetInfoFile (u : String) : FsM Bool := fun fl s =>
  if fl.getInfo then (s, .error ()) else (s, .ok (s.files.contains u))

/-- Model of `FileSystem.deleteAsync(CACHE_DIR, { idempotent: true })`: removes the
directory with everything in it, manifest included. -/
def fsDeleteDir : FsM Unit := fun fl s =>
  if fl.delete then (s, .error ())
  else ({ s with cacheDir := false, manifest := none, files := [] }, .ok ())

/-- Model of `FileSystem.makeDirectoryAsync(CACHE_DIR, { intermediates: true })`. -/
def fsMakeDir : FsM Unit := fun fl s =>
  if fl.mkdir then (s, .error ()) else ({ s with cacheDir := true }, .ok ())

/-- Model of `FileSystem.writeAsStringAsync(CACHE_MANIFEST_FILE, …)`: replaces the
manifest file; writing into a missing directory raises. -/
def fsWriteManifest (m : ManifestData) : FsM Unit := fun fl s =>
  if fl.write || !s.cacheDir then (s, .error ())
  else ({ s with manifest := some (.wellFormed m) }, .ok ())

/-- Model of `FileSystem.readAsStringAsync(CACHE_MANIFEST_FILE)`: raises when the
file is missing. -/
def fsReadManifest : FsM ManifestFile := fun fl s =>
  if fl.read then (s, .error ())
  else
    match s.manifest with
    | some f => (s, .ok f)
    | none => (s, .error ())

/-- Model of `JSON.parse` of the manifest file: raises exactly on corrupt content. -/
def jsonParseManifest (f : ManifestFile) : FsM ManifestData := fun _ s =>
  match f with
  | .wellFormed m => (s, .ok m)
  | .corrupt => (s, .error ())

/-- Model of `Date.now()`. -/
def fsNow : FsM Int := fun _ s => (s, .ok s.clock)

/-- Model of `FileSystem.downloadAsync(src, dest)`: counts one download attempt; a
faulted transfer resolves with a non-200 status and creates no file;
downloading into a missing directory raises. -/
def fsDownload (src dest : String) : FsM Int := fun fl s =>
  if fl.download src then ({ s with dlCount := s.dlCount + 1 }, .ok 500)
  else if !s.cacheDir then ({ s with dlCount := s.dlCount + 1 }, .error ())
  else ({ s with dlCount := s.dlCount + 1, files := dest :: s.files }, .ok 200)

/-- Embedding of `clearCache` from `src/services/AssetDownloader.ts` (lines 20–35):
delete the cache directory if it exists, recreate it empty; any error is
caught and swallowed. -/
def clearCache : FsM Unit :=
  tryCatchFs
    (do
      let ex ← fsGetInfoDir
      if ex then fsDeleteDir
      fsMakeDir)
    (pure ())

/-- Embedding of `saveCacheManifest` from `src/services/AssetDownloader.ts`
(lines 38–59): write the manifest with a `Date.now()` timestamp; any error
is caught and swallowed. -/
def saveCacheManifest (assets : List LocalAsset) (deviceName : String) :
    FsM Unit :=
  tryCatchFs
    (do
      let ts ← fsNow
      fsWriteManifest { assets := assets, timestamp := ts, deviceName := deviceName })
    (pure ())

/-- The verification loop of `getCachedAssets` (lines 80–93): keep `web`
entries unverified, keep other entries whose backing file still exists. -/
def verifyCached : List LocalAsset → FsM (List LocalAsset)
  | [] => pure []
  | a :: rest =>
    if a.type = .web then do
      let tail ← verifyCached rest
      pure (a :: tail)
    else do
      let ex ← fsGetInfoFile a.url
      let tail ← verifyCached rest
      if ex then pure (a :: tail) else pure tail

/-- The body of `getCachedAssets` inside its `try` (lines 63–96). -/
def getCachedAssetsBody : FsM (List LocalAsset) := do
  let ex ← fsGetInfoManifest
  if !ex then pure []
  else do
    let mf ← fsReadManifest
    let m ← jsonParseManifest mf
    verifyCached m.assets

/-- Embedding of `getCachedAssets` from `src/services/AssetDownloader.ts` (lines
62–101): the body with every error caught and turned into `[]`. -/
def getCachedAssets : FsM (List LocalAsset) :=
  tryCatchFs getCachedAssetsBody (pure [])

/-- The image-extension family of `downloadSingleAsset`. -/
def imageExts : List String := ["jpg", "jpeg", "png", "gif", "webp"]

/-- The video-extension family of `downloadSingleAsset`. -/
def videoExts : List String := ["mp4", "webm", "mov", "avi"]

/-- The web family of `downloadSingleAsset`. -/
def webTypes : List String := ["url", "html", "stream"]

/-- ASCII `toLowerCase`. -/
def jsToLower (s : String) : String :=
  List.asString (s.data.map fun c =>
    if c.toNat ≥ 65 && c.toNat ≤ 90 then Char.ofNat (c.toNat + 32) else c)

/-- The cache-directory destination of a download.  The source names the
file `${Date.now()}_${random}.${filetype}`; the claims never inspect the
name, so the embedding uses a deterministic stand-in. -/
def cachePath (a : Api.Asset) : String := "signage_cache/" ++ a.filepath

/-- Embedding of `downloadSingleAsset` from `src/services/AssetDownloader.ts` (lines
133–184): download image/video families into the cache (throwing on a
non-200 status), pass `url|html|stream` through untouched, throw
`Unsupported file type` otherwise. -/
def downloadSingleAsset (a : Api.Asset) : FsM LocalAsset :=
  if imageExts.contains (jsToLower a.filetype) then do
    let status ← fsDownload a.filepath (cachePath a)
    if status ≠ 200 then throwFs
    else pure { type := .image, url := cachePath a,
                duration := jsParseInt a.time, name := a.name }
  else if videoExts.contains (jsToLower a.filetype) then do
    let status ← fsDownload a.filepath (cachePath a)
    if status ≠ 200 then throwFs
    else pure { type := .video, url := cachePath a,
                duration := jsParseInt a.time, name := a.name }
  else if webTypes.contains (jsToLower a.filetype) then
    pure { type := .web, url := a.filepath,
           duration := jsParseInt a.time, name := a.name }
  else throwFs

/-- The download loop of `downloadAssets` (lines 114–123): each asset is
attempted under its own `try`; a failed asset is logged and dropped. -/
def downloadLoop : List Api.Asset → FsM (List LocalAsset)
  | [] => pure []
  | a :: rest => do
    let hd ← tryCatchFs (do
      let la ← downloadSingleAsset a
      pure [la]) (pure [])
    let tl ← downloadLoop rest
    pure (hd ++ tl)

/-- Embedding of `downloadAssets` from `src/services/AssetDownloader.ts` (lines
103–131): ensure the cache directory, download each asset individually,
then save a manifest only when a device name was given and at least one
asset succeeded. -/
def downloadAssets (assets : List Api.Asset) (deviceName : Option String) :
    FsM (List LocalAsset) := do
  let ex ← fsGetInfoDir
  if !ex then fsMakeDir
  let localAssets ← downloadLoop assets
  if jsTruthy deviceName && decide (0 < localAssets.length) then
    saveCacheManifest localAssets (deviceName.getD "")
  pure localAssets

/-- The outcome `downloadSingleAsset` has for one asset under fault
environment `fl`, assuming the cache directory exists: `none` when the
asset is dropped (failed download or unsupported type). -/
def expectedLocal (fl : Faults) (a : Api.Asset) : Option LocalAsset :=
  if imageExts.contains (jsToLower a.filetype) then
    if fl.download a.filepath then none
    else some { type := .image, url := cachePath a,
                duration := jsParseInt a.time, name := a.name }
  else if videoExts.contains (jsToLower a.filetype) then
    if fl.download a.filepath then none
    else some { type := .video, url := cachePath a,
                duration := jsParseInt a.time, name := a.name }
  else if webTypes.contains (jsToLower a.filetype) then
    some { type := .web, url := a.filepath,
           duration := jsParseInt a.time, name := a.name }
  else none

end Downloader

namespace Display

/-- Embedding of `assetsAreEqual` from `src/components/SignageDisplay.tsx` (lines
61–76): element-wise comparison of `filepath`, `filetype`, `time`,
`playing_order` and `name`. -/
def assetsAreEqual (l1 l2 : List Api.Asset) : Bool :=
  l1.length == l2.length &&
    (l1.zip l2).all fun ab =>
      ab.1.filepath == ab.2.filepath && ab.1.filetype == ab.2.filetype &&
        ab.1.time == ab.2.time && ab.1.playing_order == ab.2.playing_order &&
        ab.1.name == ab.2.name

/-- The state `loadContent` reads and writes across cycles: the previous
cycle's fetched asset list (`lastFetchedAssets.current`), the rotation
content handed to the `WebView` (`htmlContent`, identified with the
`localAssets` list `createHTMLWithData` embeds), and the cache store. -/
structure DisplayState where
  lastFetchedAssets : List Api.Asset
  html : Option (List Downloader.LocalAsset)
  store : Downloader.Store
deriving DecidableEq, Repr

/-- How one `loadContent` cycle ends. -/
inductive CycleOutcome where
  | okChanged (localAssets : List Downloader.LocalAsset)
  | okUnchanged
  | okOffline (cached : List Downloader.LocalAsset)
  | errOfflineNoCache
  | errFetchFailed
  | errNoValidAssets
  | errNoAssetsDownloaded
  | errDownloadThrew
deriving DecidableEq, Repr

/-- Embedding of `loadContent` from `src/components/SignageDisplay.tsx` (lines 96–211),
one sync cycle.  The device name (`getDeviceName`) and the connectivity
probe (`checkInternetConnection`) are inputs; the playlist fetch is
`Api.fetchPlaylistResult` on the given parsed payload.  Offline: serve
cached assets or fail `OfflineNoCache`.  Online: resolve; an empty resolved
list fails the cycle (`"No valid assets found in playlist"`); unchanged
content (`assetsAreEqual` against the previous cycle) returns with no
download and no cache write; changed content stores the new list, clears
the cache, downloads, and fails if nothing downloaded
(`"Failed to download any assets"`). -/
def loadContent (pd : String → Int) (now : Api.NowCtx) (device : String)
    (forceDownload hasInternet : Bool) (resp : Api.ApiResponse)
    (fl : Downloader.Faults) (st : DisplayState) :
    DisplayState × CycleOutcome :=
  if !hasInternet then
    match Downloader.getCachedAssets fl st.store with
    | (s1, .ok cached) =>
      if cached.isEmpty then ({ st with store := s1 }, .errOfflineNoCache)
      else ({ st with store := s1, html := some cached }, .okOffline cached)
    | (s1, .error _) => ({ st with store := s1 }, .errOfflineNoCache)
  else
    match Api.fetchPlaylistResult pd now resp with
    | .error _ => (st, .errFetchFailed)
    | .ok assets =>
      if assets.isEmpty then (st, .errNoValidAssets)
      else
        let contentChanged :=
          forceDownload || !(assetsAreEqual assets st.lastFetchedAssets)
        if !contentChanged then (st, .okUnchanged)
        else
          let st1 := { st with lastFetchedAssets := assets }
          let (s1, _) := Downloader.clearCache fl st1.store
          match Downloader.downloadAssets assets (some device) fl s1 with
          | (s2, .ok la) =>
            if la.isEmpty then ({ st1 with store := s2 }, .errNoAssetsDownloaded)
            else ({ st1 with store := s2, html := some la }, .okChanged la)
          | (s2, .error _) => ({ st1 with store := s2 }, .errDownloadThrew)

end Display

namespace Dedup

/-- Where one `downloadAndCacheAsset` call (legacy variant,
`src/unnamed/part_003` lines 532–624) stands: before its synchronous
entry check (`downloadQueue.current.has(filepath)` and, if absent,
`add(filepath)`), awaiting the download body, at the `finally` that
removes the filepath from the queue, or returned. -/
inductive Phase where
  | entry
  | download
  | exitp
  | donep
deriving DecidableEq, Repr

/-- Returns `true` while a call holds the queue entry (between `add` and the
`finally` delete). -/
def inFlight (p : Phase) : Bool := p == .download || p == .exitp

/-- Two interleaved `downloadAndCacheAsset` calls for the same filepath:
the shared `downloadQueue` set, the count of download attempts issued, the
phase of each call, and a flag recording whether some call executed its
entry check while the other was in flight. -/
structure Config where
  queue : List String
  attempts : Nat
  p1 : Phase
  p2 : Phase
  overlapped : Bool
deriving DecidableEq, Repr

/-- One cooperative step of one call.  `entry` is atomic (the source has no
`await` between the `has` check and `add`); the whole download body is one
step because it touches the queue nowhere and issues exactly one download
attempt for the cacheable file families; `exitp` is the `finally`
delete. -/
def stepOf (fp : String) (p other : Phase) (c : Config) :
    Config × Phase :=
  match p with
  | .entry =>
    let c := { c with overlapped := c.overlapped || inFlight other }
    if fp ∈ c.queue then (c, .donep)
    else ({ c with queue := fp :: c.queue }, .download)
  | .download => ({ c with attempts := c.attempts + 1 }, .exitp)
  | .exitp => ({ c with queue := c.queue.erase fp }, .donep)
  | .donep => (c, .donep)

/-- Scheduler step: `true` steps call 1, `false` steps call 2. -/
def doStep (fp : String) (c : Config) (first : Bool) : Config :=
  if first then
    let (c1, p) := stepOf fp c.p1 c.p2 c
    { c1 with p1 := p }
  else
    let (c1, p) := stepOf fp c.p2 c.p1 c
    { c1 with p2 := p }

/-- Run a schedule (list of scheduler choices). -/
def run (fp : String) : List Bool → Config → Config
  | [], c => c
  | b :: rest, c => run fp rest (doStep fp c b)

/-- Both calls start at their entry check with an empty queue. -/
def initConfig : Config :=
  { queue := [], attempts := 0, p1 := .entry, p2 := .entry,
    overlapped := false }

/-- The configurations reachable by interleaving two
`downloadAndCacheAsset` calls for the same filepath from `initConfig`
(an explicit enumeration, closed under `doStep`). -/
def Inv (fp : String) (c : Config) : Prop :=
  c = ⟨[], 0, .entry, .entry, false⟩ ∨
  c = ⟨[fp], 0, .download, .entry, false⟩ ∨
  c = ⟨[fp], 0, .entry, .download, false⟩ ∨
  c = ⟨[fp], 1, .exitp, .entry, false⟩ ∨
  c = ⟨[fp], 1, .entry, .exitp, false⟩ ∨
  c = ⟨[], 1, .donep, .entry, false⟩ ∨
  c = ⟨[], 1, .entry, .donep, false⟩ ∨
  c = ⟨[fp], 0, .download, .donep, true⟩ ∨
  c = ⟨[fp], 0, .donep, .download, true⟩ ∨
  c = ⟨[fp], 1, .exitp, .donep, true⟩ ∨
  c = ⟨[fp], 1, .donep, .exitp, true⟩ ∨
  c = ⟨[], 1, .donep, .donep, true⟩ ∨
  c = ⟨[fp], 1, .download, .donep, false⟩ ∨
  c = ⟨[fp], 1, .donep, .download, false⟩ ∨
  c = ⟨[fp], 2, .exitp, .donep, false⟩ ∨
  c = ⟨[fp], 2, .donep, .exitp, false⟩ ∨
  c = ⟨[], 2, .donep, .donep, false⟩

end Dedup

namespace Rotation

/-- The configured minimum display duration of the rotation script in
`createHTMLWithData` (`Math.max(duration * 1000, 1000)` — "Minimum 1
second"), in seconds. -/
def floorSeconds : Nat := 1

/-- Embedding of `scheduleNext` (generated script, `src/services/AssetDownloader.ts`
lines 528–536): the timer fires after
`Math.max(duration * 1000, 1000)` milliseconds. -/
def timeoutMs (duration : Nat) : Nat := max (duration * 1000) 1000

/-- Embedding of `rotateToNext` (lines 545–557): `(currentIndex + 1) % contentList.length`. -/
def rotateToNext (n i : Nat) : Nat := (i + 1) % n

/-- The index shown after `k` timer-driven advances, starting from
`currentIndex = 0` (the error-free path: `isTransitioning` is false
whenever the rotation timer fires). -/
def shownIndex (n : Nat) : Nat → Nat
  | 0 => 0
  | k + 1 => rotateToNext n (shownIndex n k)

end Rotation

/-! ## Theorems -/

/-- Helper: `find?` returns the head of the first match: if nothing in a prefix
satisfies the predicate and the next element does, that element is found. -/
theorem findFirstAppend {α : Type} (p : α → Bool) :
    ∀ (l1 : List α) (a : α) (l2 : List α),
      (∀ x ∈ l1, p x = false) → p a = true →
      List.find? p (l1 ++ a :: l2) = some a := by
  intro l1
  induction l1 with
  | nil =>
    intro a l2 _ ha
    exact List.find?_cons_of_pos _ ha
  | cons x xs ih =>
    intro a l2 hall ha
    have hx : p x = false := hall x (List.mem_cons_self x xs)
    rw [List.cons_append, List.find?_cons_of_neg _ (by simp [hx])]
    exact ih a l2 (fun y hy => hall y (List.mem_cons_of_mem x hy)) ha

/-- C2: for every payload with at least one playlist, resolution selects
the first non-default playlist in payload order whose activity predicate is
true at `now`; if no non-default playlist is active it selects the first
playlist flagged default; and if no playlist is flagged default it selects
the first playlist in payload order. -/
theorem c2_playlist_selection (pd : String → Int) (now : Api.NowCtx)
    (pls : List Api.Playlist) (hne : pls ≠ []) :
    (∀ l1 p l2, pls = l1 ++ p :: l2 →
        Api.activeNonDefault pd now p = true →
        (∀ q ∈ l1, Api.activeNonDefault pd now q = false) →
        Api.selectedPlaylist pd now pls = some p) ∧
    ((∀ q ∈ pls, Api.activeNonDefault pd now q = false) →
      ∀ l1 p l2, pls = l1 ++ p :: l2 → p.is_default = true →
        (∀ q ∈ l1, q.is_default = false) →
        Api.selectedPlaylist pd now pls = some p) ∧
    ((∀ q ∈ pls, Api.activeNonDefault pd now q = false) →
      (∀ q ∈ pls, q.is_default = false) →
      Api.selectedPlaylist pd now pls = pls.head?) := by
  match pls, hne with
  | p0 :: rest, _ =>
    refine ⟨?_, ?_, ?_⟩
    · intro l1 p l2 heq hact hprev
      have hfind : List.find? (Api.activeNonDefault pd now) (p0 :: rest) = some p := by
        rw [heq]; exact findFirstAppend _ l1 p l2 hprev hact
      simp [Api.selectedPlaylist, hfind]
    · intro hnone l1 p l2 heq hdef hprev
      have h1 : List.find? (Api.activeNonDefault pd now) (p0 :: rest) = none :=
        List.find?_eq_none.mpr (fun x hx => by simp [hnone x hx])
      have h2 : List.find? (fun q => q.is_default) (p0 :: rest) = some p := by
        rw [heq]
        exact findFirstAppend _ l1 p l2 (fun q hq => hprev q hq) hdef
      simp [Api.selectedPlaylist, h1, h2]
    · intro hnone hnodef
      have h1 : List.find? (Api.activeNonDefault pd now) (p0 :: rest) = none :=
        List.find?_eq_none.mpr (fun x hx => by simp [hnone x hx])
      have h2 : List.find? (fun q : Api.Playlist => q.is_default) (p0 :: rest) = none :=
        List.find?_eq_none.mpr (fun x hx => by simp [hnodef x hx])
      simp [Api.selectedPlaylist, h1, h2]

/-- Witness for C2 at the spec's own example: a default playlist first, a
Monday-scheduled playlist second, resolved on a Monday — the scheduled
playlist wins. -/
theorem c2_playlist_selection_witness :
    Api.selectedPlaylist (fun _ => 0)
      { epochMs := 5, weekdayShort := "Mon", weekdayLong := "Monday",
        timeString := "12:00:00" }
      [{ is_default := true, assets := [] },
       { weekdays := some "Mon", assets := [] }] =
      some { weekdays := some "Mon", assets := [] } := by
  exact (c2_playlist_selection (fun _ => 0)
      { epochMs := 5, weekdayShort := "Mon", weekdayLong := "Monday",
        timeString := "12:00:00" }
      [{ is_default := true, assets := [] },
       { weekdays := some "Mon", assets := [] }] (by decide)).1
    [{ is_default := true, assets := [] }]
    { weekdays := some "Mon", assets := [] } [] rfl (by decide) (by decide)

/-- Fact: `dayMap` hits `some` exactly on the seven short names. -/
theorem dayMap_cases {s v : String} (h : Api.dayMap s = some v) :
    (s = "Mon" ∧ v = "Monday") ∨ (s = "Tue" ∧ v = "Tuesday") ∨
    (s = "Wed" ∧ v = "Wednesday") ∨ (s = "Thu" ∧ v = "Thursday") ∨
    (s = "Fri" ∧ v = "Friday") ∨ (s = "Sat" ∧ v = "Saturday") ∨
    (s = "Sun" ∧ v = "Sunday") := by
  unfold Api.dayMap at h
  split_ifs at h with h1 h2 h3 h4 h5 h6 h7 <;> simp_all

/-- The `dayMap` of `isPlaylistActive` is injective on its domain. -/
theorem dayMap_inj {a b v : String}
    (ha : Api.dayMap a = some v) (hb : Api.dayMap b = some v) : a = b := by
  have ca := dayMap_cases ha
  have cb := dayMap_cases hb
  rcases ca with ⟨rfl, rfl⟩ | ⟨rfl, rfl⟩ | ⟨rfl, rfl⟩ | ⟨rfl, rfl⟩ |
    ⟨rfl, rfl⟩ | ⟨rfl, rfl⟩ | ⟨rfl, rfl⟩ <;>
    rcases cb with ⟨rfl, h⟩ | ⟨rfl, h⟩ | ⟨rfl, h⟩ | ⟨rfl, h⟩ |
      ⟨rfl, h⟩ | ⟨rfl, h⟩ | ⟨rfl, h⟩ <;> simp_all

/-- The date-range check agrees with the claim's inclusive window on parsed
date values. -/
theorem dateCheck_iff (pd : String → Int) (p : Api.Playlist) (now : Api.NowCtx) :
    Api.dateCheck pd p now = true ↔ Api.specDateWindow pd p now := by
  unfold Api.dateCheck Api.specDateWindow
  cases hs : jsTruthy p.startdate <;> cases he : jsTruthy p.enddate <;>
    simp [hs, he, Int.not_lt]

/-- The weekday check agrees with the claim's membership condition, for any
`now` whose short weekday name maps to its long weekday name. -/
theorem weekdayCheck_iff (p : Api.Playlist) (now : Api.NowCtx)
    (hwd : Api.dayMap now.weekdayShort = some now.weekdayLong) :
    Api.weekdayCheck p now = true ↔ Api.specWeekdayOk p now := by
  unfold Api.weekdayCheck Api.specWeekdayOk
  cases hw : jsTruthy p.weekdays <;> simp [hw]
  constructor
  · rintro ⟨d, hd, hor⟩
    rcases hor with h | h
    · exact h ▸ hd
    · exact (dayMap_inj h hwd) ▸ hd
  · intro hmem
    exact ⟨now.weekdayShort, hmem, Or.inl rfl⟩

/-- The time-of-day check agrees with the claim's inclusive string window. -/
theorem timeCheck_iff (p : Api.Playlist) (now : Api.NowCtx) :
    Api.timeCheck p now = true ↔ Api.specTimeWindow p now := by
  unfold Api.timeCheck Api.specTimeWindow
  cases hs : jsTruthy p.starttime <;> cases he : jsTruthy p.endtime <;>
    simp [hs, he]

/-- C3: for every non-default playlist and every instant `now` (with
consistent weekday names), the activity predicate is true iff the date
window (inclusive, over parsed `new Date(·).getTime()` values, missing
bound unbounded), the weekday membership, and the inclusive `HH:MM:SS`
time-of-day window all hold; the code evaluates the checks in the order
date, weekday, time-of-day. -/
theorem c3_activity_predicate (pd : String → Int) (p : Api.Playlist)
    (now : Api.NowCtx) (hnd : p.is_default = false)
    (hwd : Api.dayMap now.weekdayShort = some now.weekdayLong) :
    Api.isPlaylistActive pd p now = true ↔
      Api.specDateWindow pd p now ∧ Api.specWeekdayOk p now ∧
        Api.specTimeWindow p now := by
  unfold Api.isPlaylistActive
  rw [hnd]
  simp only [Bool.false_eq_true, if_false, Bool.and_eq_true]
  rw [dateCheck_iff, weekdayCheck_iff p now hwd, timeCheck_iff, and_assoc]

/-- Witness for C3: a playlist scheduled for Mondays 09:00–17:00 within a
date window, evaluated on a Monday noon inside the window. -/
theorem c3_activity_predicate_witness :
    Api.specDateWindow (fun _ => 3)
      { weekdays := some "Mon, Tue", starttime := some "09:00:00",
        endtime := some "17:00:00", startdate := some "2024-01-01",
        enddate := some "2024-12-31", assets := [] }
      { epochMs := 3, weekdayShort := "Mon", weekdayLong := "Monday",
        timeString := "12:00:00" } ∧
    Api.specWeekdayOk
      { weekdays := some "Mon, Tue", starttime := some "09:00:00",
        endtime := some "17:00:00", startdate := some "2024-01-01",
        enddate := some "2024-12-31", assets := [] }
      { epochMs := 3, weekdayShort := "Mon", weekdayLong := "Monday",
        timeString := "12:00:00" } ∧
    Api.specTimeWindow
      { weekdays := some "Mon, Tue", starttime := some "09:00:00",
        endtime := some "17:00:00", startdate := some "2024-01-01",
        enddate := some "2024-12-31", assets := [] }
      { epochMs := 3, weekdayShort := "Mon", weekdayLong := "Monday",
        timeString := "12:00:00" } := by
  exact (c3_activity_predicate (fun _ => 3)
    { weekdays := some "Mon, Tue", starttime := some "09:00:00",
      endtime := some "17:00:00", startdate := some "2024-01-01",
      enddate := some "2024-12-31", assets := [] }
    { epochMs := 3, weekdayShort := "Mon", weekdayLong := "Monday",
      timeString := "12:00:00" } rfl (by decide)).mp (by decide)

/-- C4: resolution removes exactly the assets whose filepath is missing or
whose duration is missing, unparsable, or non-positive (conjuncts 1–2), and
sorts the kept assets by playing order ascending (conjunct 3) with a stable
sort — among equal keys the original positions stay increasing (conjunct 4,
stated over the index-decorated list the sort orders); missing
`playing_order` sorts as key `0` (`playingOrderKey`).  Conjunct 5 is the
spec's own stability example `[{2,A},{1,B},{1,C}] ↦ [B,C,A]`.
(For a `playing_order` that is present but unparsable the JavaScript
comparator returns `NaN` and ECMA-262 leaves the order
implementation-defined; the embedding's total `(key, index)` order is
faithful whenever every `playing_order` parses.) -/
theorem c4_filter_and_stable_sort (l : List Api.Asset) :
    (∀ a : Api.Asset, Api.validAsset a = true ↔ ¬ Api.specRemoved a) ∧
    (Api.processAssets l).Perm (l.filter Api.validAsset) ∧
    List.Pairwise
      (fun a b : Api.Asset => Api.playingOrderKey a ≤ Api.playingOrderKey b)
      (Api.processAssets l) ∧
    List.Pairwise
      (fun p q : Nat × Api.Asset =>
        Api.playingOrderKey p.2 = Api.playingOrderKey q.2 → p.1 ≤ q.1)
      (Api.sortedEnum (l.filter Api.validAsset)) ∧
    Api.processAssets
      [{ filepath := "a", filetype := "jpg", time := "5",
         name := some "A", playing_order := some "2" },
       { filepath := "b", filetype := "jpg", time := "5",
         name := some "B", playing_order := some "1" },
       { filepath := "c", filetype := "jpg", time := "5",
         name := some "C", playing_order := some "1" }] =
      [{ filepath := "b", filetype := "jpg", time := "5",
         name := some "B", playing_order := some "1" },
       { filepath := "c", filetype := "jpg", time := "5",
         name := some "C", playing_order := some "1" },
       { filepath := "a", filetype := "jpg", time := "5",
         name := some "A", playing_order := some "2" }] := by
  refine ⟨?_, ?_, ?_, ?_, by decide⟩
  · intro a
    unfold Api.validAsset Api.specRemoved Api.specDurationValid
    cases h : jsParseInt a.time with
    | none => simp [h]
    | some n => simp [h, not_or, Int.not_lt, and_assoc]
  · have h1 : (Api.sortedEnum (l.filter Api.validAsset)).Perm
        ((l.filter Api.validAsset).enum) :=
      List.perm_insertionSort _ _
    have h2 := h1.map Prod.snd
    rw [List.enum_map_snd] at h2
    exact h2
  · have hs := List.sorted_insertionSort Api.sortLe
      ((l.filter Api.validAsset).enum)
    exact List.Pairwise.map Prod.snd
      (fun p q hpq => by
        rcases hpq with h | ⟨h, _⟩
        · exact le_of_lt h
        · exact le_of_eq h) hs
  · have hs := List.sorted_insertionSort Api.sortLe
      ((l.filter Api.validAsset).enum)
    exact hs.imp (fun {p q} hpq => by
      rcases hpq with h | ⟨he, hi⟩
      · intro heq
        exact absurd (heq ▸ h) (lt_irrefl _)
      · exact fun _ => hi)

/-- Fact: `shownIndex` is plain modular counting. -/
theorem shownIndex_eq_mod (n : Nat) : ∀ k, Rotation.shownIndex n k = k % n := by
  intro k
  induction k with
  | zero => simp [Rotation.shownIndex]
  | succ k ih =>
    simp only [Rotation.shownIndex, Rotation.rotateToNext, ih]
    exact Nat.mod_add_mod k n 1

/-- C9: for a non-empty rotation list with durations `ds`, absent render
errors the shown index advances by `(i + 1) % n`, giving the sequence
`k % n` — periodic with period `n = ds.length`; and the timer for index `i`
fires after `max(d_i, floorSeconds)` seconds (in milliseconds), so each
index is shown at least `d_i` seconds and at least the configured
1-second floor. -/
theorem c9_rotation_invariant (ds : List Nat) (hne : ds ≠ []) (k i : Nat)
    (hi : i < ds.length) :
    Rotation.shownIndex ds.length (k + ds.length) =
      Rotation.shownIndex ds.length k ∧
    Rotation.shownIndex ds.length k = k % ds.length ∧
    Rotation.timeoutMs (ds.getD i 0) =
      1000 * max (ds.getD i 0) Rotation.floorSeconds ∧
    1000 * (ds.getD i 0) ≤ Rotation.timeoutMs (ds.getD i 0) ∧
    1000 * Rotation.floorSeconds ≤ Rotation.timeoutMs (ds.getD i 0) := by
  refine ⟨?_, shownIndex_eq_mod _ _, ?_, ?_, ?_⟩
  · rw [shownIndex_eq_mod, shownIndex_eq_mod, Nat.add_mod_right]
  · unfold Rotation.timeoutMs Rotation.floorSeconds
    omega
  · unfold Rotation.timeoutMs
    omega
  · unfold Rotation.timeoutMs Rotation.floorSeconds
    omega

/-- Witness for C9: two assets with durations 3 s and 1 s, checked after
five advances. -/
theorem c9_rotation_invariant_witness :
    Rotation.shownIndex 2 7 = Rotation.shownIndex 2 5 ∧
    Rotation.shownIndex 2 5 = 5 % 2 ∧
    Rotation.timeoutMs ([3, 1].getD 0 0) =
      1000 * max ([3, 1].getD 0 0) Rotation.floorSeconds ∧
    1000 * ([3, 1].getD 0 0) ≤ Rotation.timeoutMs ([3, 1].getD 0 0) ∧
    1000 * Rotation.floorSeconds ≤ Rotation.timeoutMs ([3, 1].getD 0 0) := by
  exact c9_rotation_invariant [3, 1] (by decide) 5 0 (by decide)

/-- Evaluation rule for `FsM` bind. -/
theorem fsBind_def {α β : Type} (x : Downloader.FsM α) (f : α → Downloader.FsM β)
    (fl : Downloader.Faults) (s : Downloader.Store) :
    (x >>= f) fl s =
      match x fl s with
      | (s1, .ok a) => f a fl s1
      | (s1, .error e) => (s1, .error e) := rfl

/-- Evaluation rule for `FsM` pure. -/
theorem fsPure_def {α : Type} (a : α) (fl : Downloader.Faults)
    (s : Downloader.Store) :
    (pure a : Downloader.FsM α) fl s = (s, .ok a) := rfl

/-- C5: when the winning playlist's asset list is empty after filtering,
the cycle fails with the no-valid-assets error and leaves the cycle state
(previous assets, rotation content, cache store) untouched, rather than
producing an empty rotation list. -/
theorem c5_empty_resolution_fails_cycle (pd : String → Int) (now : Api.NowCtx)
    (device : String) (force : Bool) (resp : Api.ApiResponse)
    (fl : Downloader.Faults) (st : Display.DisplayState)
    (p0 : Api.Playlist) (rest : List Api.Playlist)
    (hp : resp.playlists = p0 :: rest)
    (hempty : Api.processAssets
        ((Api.selectedPlaylist pd now (p0 :: rest)).getD p0).assets = []) :
    Display.loadContent pd now device force true resp fl st =
      (st, .errNoValidAssets) := by
  have hfetch : Api.fetchPlaylistResult pd now resp = .ok [] := by
    simp [Api.fetchPlaylistResult, hp, hempty]
  simp [Display.loadContent, hfetch]

/-- Witness for C5: a payload whose single playlist has one asset with
`time = "0"`, which the filter removes. -/
theorem c5_empty_resolution_fails_cycle_witness :
    Display.loadContent (fun _ => 0)
      { epochMs := 0, weekdayShort := "Mon", weekdayLong := "Monday",
        timeString := "12:00:00" }
      "dev" true true
      { playlists := [{ assets :=
          [{ filepath := "x", filetype := "jpg", time := "0" }] }] }
      { }
      { lastFetchedAssets := [], html := none,
        store := { cacheDir := true, manifest := none, files := [],
                   clock := 0 } } =
      ({ lastFetchedAssets := [], html := none,
         store := { cacheDir := true, manifest := none, files := [],
                    clock := 0 } }, .errNoValidAssets) := by
  exact c5_empty_resolution_fails_cycle (fun _ => 0)
    { epochMs := 0, weekdayShort := "Mon", weekdayLong := "Monday",
      timeString := "12:00:00" }
    "dev" true
    { playlists := [{ assets :=
        [{ filepath := "x", filetype := "jpg", time := "0" }] }] }
    { }
    { lastFetchedAssets := [], html := none,
      store := { cacheDir := true, manifest := none, files := [],
                 clock := 0 } }
    { assets := [{ filepath := "x", filetype := "jpg", time := "0" }] }
    [] rfl (by decide)

/-- Fact: `assetsAreEqual` is reflexive: a list always compares equal to itself. -/
theorem assetsAreEqual_refl : ∀ l, Display.assetsAreEqual l l = true := by
  intro l
  induction l with
  | nil => rfl
  | cons a t ih =>
    simp [Display.assetsAreEqual] at ih ⊢
    exact ih

/-- C8: change detection makes the cycle idempotent — a list is equal to
itself under `assetsAreEqual` (so an identical payload resolved at the same
instant compares equal); a cycle whose resolved list compares equal to the
previous cycle's list returns with the entire state (previous list,
rotation content, cache store — hence zero downloads, no cache clear)
untouched; and after any successful changed cycle, re-running the cycle on
the same payload performs no download and leaves the state untouched. -/
theorem c8_change_detection_idempotence (pd : String → Int) (now : Api.NowCtx)
    (device : String) (resp : Api.ApiResponse) (fl : Downloader.Faults)
    (assets : List Api.Asset)
    (hfetch : Api.fetchPlaylistResult pd now resp = .ok assets)
    (hne : assets ≠ []) :
    (∀ l : List Api.Asset, Display.assetsAreEqual l l = true) ∧
    (∀ st : Display.DisplayState,
      Display.assetsAreEqual assets st.lastFetchedAssets = true →
      Display.loadContent pd now device false true resp fl st =
        (st, .okUnchanged)) ∧
    (∀ (force : Bool) (st0 st1 : Display.DisplayState)
        (la : List Downloader.LocalAsset),
      Display.loadContent pd now device force true resp fl st0 =
        (st1, .okChanged la) →
      Display.loadContent pd now device false true resp fl st1 =
        (st1, .okUnchanged)) := by
  have hN : assets.isEmpty = false := by
    cases assets with
    | nil => exact absurd rfl hne
    | cons a t => rfl
  have hunch : ∀ st : Display.DisplayState,
      Display.assetsAreEqual assets st.lastFetchedAssets = true →
      Display.loadContent pd now device false true resp fl st =
        (st, .okUnchanged) := by
    intro st heq
    simp [Display.loadContent, hfetch, hN, heq]
  refine ⟨assetsAreEqual_refl, hunch, ?_⟩
  intro force st0 st1 la h
  have hlast : st1.lastFetchedAssets = assets := by
    revert h
    unfold Display.loadContent
    simp only [hfetch, hN, Bool.not_true, Bool.not_false, if_false, if_true,
      Bool.false_eq_true, ite_false, ite_true]
    cases hch : (force || !(Display.assetsAreEqual assets st0.lastFetchedAssets)) with
    | false => simp
    | true =>
      simp only [Bool.not_true, Bool.false_eq_true, if_false]
      rcases Downloader.clearCache fl
          ({ st0 with lastFetchedAssets := assets } : Display.DisplayState).store
        with ⟨s1, u⟩
      rcases h2 : Downloader.downloadAssets assets (some device) fl s1 with ⟨s2, r2⟩
      cases r2 with
      | ok lb =>
        cases hlb : lb.isEmpty with
        | true => simp [hlb]
        | false =>
          simp only [hlb, Bool.false_eq_true, if_false]
          intro hinj
          have := congrArg Prod.fst hinj
          simp at this
          rw [← this]
      | error e => simp
  exact hunch st1 (by rw [hlast]; exact assetsAreEqual_refl assets)

/-- Witness for C8: a one-asset payload; after the forced first cycle has
downloaded and cached it, a second cycle on the same payload returns with
the state — download counter included — untouched. -/
theorem c8_change_detection_idempotence_witness :
    Display.loadContent (fun _ => 0)
      { epochMs := 0, weekdayShort := "Mon", weekdayLong := "Monday",
        timeString := "12:00:00" }
      "dev" false true
      { playlists := [{ assets :=
          [{ filepath := "a.jpg", filetype := "jpg", time := "5" }] }] }
      { }
      { lastFetchedAssets := [{ filepath := "a.jpg", filetype := "jpg", time := "5" }],
        html := some [{ type := .image, url := "signage_cache/a.jpg",
                        duration := some 5, name := none }],
        store := { cacheDir := true,
                   manifest := some (.wellFormed
                     { assets := [{ type := .image, url := "signage_cache/a.jpg",
                                    duration := some 5, name := none }],
                       timestamp := 0, deviceName := "dev" }),
                   files := ["signage_cache/a.jpg"], clock := 0, dlCount := 1 } } =
      ({ lastFetchedAssets := [{ filepath := "a.jpg", filetype := "jpg", time := "5" }],
         html := some [{ type := .image, url := "signage_cache/a.jpg",
                         duration := some 5, name := none }],
         store := { cacheDir := true,
                    manifest := some (.wellFormed
                      { assets := [{ type := .image, url := "signage_cache/a.jpg",
                                     duration := some 5, name := none }],
                        timestamp := 0, deviceName := "dev" }),
                    files := ["signage_cache/a.jpg"], clock := 0, dlCount := 1 } },
       .okUnchanged) := by
  exact (c8_change_detection_idempotence (fun _ => 0)
      { epochMs := 0, weekdayShort := "Mon", weekdayLong := "Monday",
        timeString := "12:00:00" }
      "dev"
      { playlists := [{ assets :=
          [{ filepath := "a.jpg", filetype := "jpg", time := "5" }] }] }
      { }
      [{ filepath := "a.jpg", filetype := "jpg", time := "5" }]
      (by decide) (by decide)).2.2 true
    { lastFetchedAssets := [], html := none,
      store := { cacheDir := true, manifest := none, files := [], clock := 0 } }
    { lastFetchedAssets := [{ filepath := "a.jpg", filetype := "jpg", time := "5" }],
      html := some [{ type := .image, url := "signage_cache/a.jpg",
                      duration := some 5, name := none }],
      store := { cacheDir := true,
                 manifest := some (.wellFormed
                   { assets := [{ type := .image, url := "signage_cache/a.jpg",
                                  duration := some 5, name := none }],
                     timestamp := 0, deviceName := "dev" }),
                 files := ["signage_cache/a.jpg"], clock := 0, dlCount := 1 } }
    [{ type := .image, url := "signage_cache/a.jpg",
       duration := some 5, name := none }]
    (by decide)

/-- C1 counterexample: a changed-content cycle whose downloads all fail
destroys the previously valid manifest.  Before the cycle the store holds a
well-formed manifest; `loadContent` clears the cache (manifest included)
before downloading, every download fails, no new manifest is written, and
the cycle ends with no manifest at all — contradicting the claim that the
old manifest is discarded only after the cycle's downloads have fully
succeeded. -/
theorem c1_counterexample :
    let st0 : Display.DisplayState :=
      { lastFetchedAssets := [], html := none,
        store := { cacheDir := true,
                   manifest := some (.wellFormed
                     { assets := [{ type := .image,
                                    url := "signage_cache/old.jpg",
                                    duration := some 5, name := none }],
                       timestamp := 0, deviceName := "dev" }),
                   files := ["signage_cache/old.jpg"], clock := 1 } }
    let r := Display.loadContent (fun _ => 0)
      { epochMs := 0, weekdayShort := "Mon", weekdayLong := "Monday",
        timeString := "12:00:00" }
      "dev" true true
      { playlists := [{ assets :=
          [{ filepath := "a.jpg", filetype := "jpg", time := "5" }] }] }
      { download := fun _ => true } st0
    st0.store.manifest.isSome = true ∧
    r.1.store.manifest = none ∧
    r.2 = .errNoAssetsDownloaded := by
  decide

/-- Behaviour of `clearCache` under working filesystem primitives: the directory is
wiped and recreated empty, the manifest and all files are gone. -/
theorem clearCache_success (fl : Downloader.Faults) (s : Downloader.Store)
    (hg : fl.getInfo = false) (hd : fl.delete = false) (hm : fl.mkdir = false)
    (hdir : s.cacheDir = true) :
    Downloader.clearCache fl s =
      ({ s with cacheDir := true, manifest := none, files := [] }, .ok ()) := by
  simp [Downloader.clearCache, Downloader.tryCatchFs, fsBind_def, fsPure_def,
    Downloader.fsGetInfoDir, Downloader.fsDeleteDir, Downloader.fsMakeDir,
    hg, hd, hm, hdir]

/-- One iteration of the download loop: the per-asset `try` produces
exactly the `expectedLocal` outcome (as a zero- or one-element list) and
touches neither the manifest, nor the clock, nor the directory. -/
theorem downloadStep_char (fl : Downloader.Faults) (a : Api.Asset)
    (s : Downloader.Store) (hdir : s.cacheDir = true) :
    ∃ s1 : Downloader.Store,
      Downloader.tryCatchFs (do
          let la ← Downloader.downloadSingleAsset a
          pure [la]) (pure []) fl s =
        (s1, .ok (Downloader.expectedLocal fl a).toList) ∧
      s1.cacheDir = true ∧ s1.manifest = s.manifest ∧ s1.clock = s.clock := by
  by_cases h1 : Downloader.jsToLower a.filetype ∈ Downloader.imageExts
  · by_cases hdl : fl.download a.filepath
    · refine ⟨{ s with dlCount := s.dlCount + 1 }, ?_, hdir, rfl, rfl⟩
      simp [Downloader.tryCatchFs, fsBind_def, fsPure_def,
        Downloader.downloadSingleAsset, Downloader.fsDownload,
        Downloader.throwFs, Downloader.expectedLocal, h1, hdl, hdir]
    · refine ⟨{ s with
          dlCount := s.dlCount + 1,
          files := Downloader.cachePath a :: s.files }, ?_, hdir, rfl, rfl⟩
      simp [Downloader.tryCatchFs, fsBind_def, fsPure_def,
        Downloader.downloadSingleAsset, Downloader.fsDownload,
        Downloader.throwFs, Downloader.expectedLocal, h1, hdl, hdir]
  · by_cases h2 : Downloader.jsToLower a.filetype ∈ Downloader.videoExts
    · by_cases hdl : fl.download a.filepath
      · refine ⟨{ s with dlCount := s.dlCount + 1 }, ?_, hdir, rfl, rfl⟩
        simp [Downloader.tryCatchFs, fsBind_def, fsPure_def,
          Downloader.downloadSingleAsset, Downloader.fsDownload,
          Downloader.throwFs, Downloader.expectedLocal, h1, h2, hdl, hdir]
      · refine ⟨{ s with
            dlCount := s.dlCount + 1,
            files := Downloader.cachePath a :: s.files }, ?_, hdir, rfl, rfl⟩
        simp [Downloader.tryCatchFs, fsBind_def, fsPure_def,
          Downloader.downloadSingleAsset, Downloader.fsDownload,
          Downloader.throwFs, Downloader.expectedLocal, h1, h2, hdl, hdir]
    · by_cases h3 : Downloader.jsToLower a.filetype ∈ Downloader.webTypes
      · refine ⟨s, ?_, hdir, rfl, rfl⟩
        simp [Downloader.tryCatchFs, fsBind_def, fsPure_def,
          Downloader.downloadSingleAsset, Downloader.expectedLocal, h1, h2, h3]
      · refine ⟨s, ?_, hdir, rfl, rfl⟩
        simp [Downloader.tryCatchFs, fsBind_def, fsPure_def,
          Downloader.downloadSingleAsset, Downloader.throwFs,
          Downloader.expectedLocal, h1, h2, h3]

/-- The download loop batches the per-asset outcomes: it returns exactly
the assets `expectedLocal` succeeds on, in order, and leaves the manifest,
the clock and the directory alone. -/
theorem downloadLoop_char (fl : Downloader.Faults) :
    ∀ (assets : List Api.Asset) (s : Downloader.Store), s.cacheDir = true →
      ∃ s1 : Downloader.Store,
        Downloader.downloadLoop assets fl s =
          (s1, .ok (assets.filterMap (Downloader.expectedLocal fl))) ∧
        s1.cacheDir = true ∧ s1.manifest = s.manifest ∧ s1.clock = s.clock := by
  intro assets
  induction assets with
  | nil => intro s h; exact ⟨s, rfl, h, rfl, rfl⟩
  | cons a rest ih =>
    intro s h
    obtain ⟨s1, hstep, hc1, hm1, hk1⟩ := downloadStep_char fl a s h
    obtain ⟨s2, hloop, hc2, hm2, hk2⟩ := ih s1 hc1
    refine ⟨s2, ?_, hc2, by rw [hm2, hm1], by rw [hk2, hk1]⟩
    simp only [Downloader.downloadLoop, fsBind_def, hstep, hloop, fsPure_def,
      List.filterMap_cons]
    cases hE : Downloader.expectedLocal fl a <;> simp [hE]

/-- Behaviour of `downloadAssets` under a working directory and manifest write: it
returns exactly the assets whose downloads succeed, and writes a manifest
containing exactly that list — but only when the list is non-empty; an
all-failed batch leaves the manifest as it was on entry. -/
theorem downloadAssets_char (fl : Downloader.Faults)
    (assets : List Api.Asset) (dn : String) (s : Downloader.Store)
    (hdir : s.cacheDir = true) (hg : fl.getInfo = false)
    (hw : fl.write = false) (hdn : ¬ dn = "") :
    ∃ s1 : Downloader.Store,
      Downloader.downloadAssets assets (some dn) fl s =
        (s1, .ok (assets.filterMap (Downloader.expectedLocal fl))) ∧
      s1.cacheDir = true ∧ s1.clock = s.clock ∧
      s1.manifest =
        (if assets.filterMap (Downloader.expectedLocal fl) = []
         then s.manifest
         else some (.wellFormed
           { assets := assets.filterMap (Downloader.expectedLocal fl),
             timestamp := s.clock, deviceName := dn })) := by
  obtain ⟨s1, hloop, hc1, hm1, hk1⟩ := downloadLoop_char fl assets s hdir
  rcases hL : assets.filterMap (Downloader.expectedLocal fl) with _ | ⟨x, xs⟩
  · refine ⟨s1, ?_, hc1, hk1, by simp [hL, hm1]⟩
    rw [hL] at hloop
    simp [Downloader.downloadAssets, fsBind_def, fsPure_def,
      Downloader.fsGetInfoDir, hg, hdir, hloop, hL]
  · rw [hL] at hloop
    refine ⟨{ s1 with manifest := some (.wellFormed
        { assets := x :: xs, timestamp := s.clock, deviceName := dn }) },
      ?_, hc1, hk1, by simp [hL]⟩
    simp [Downloader.downloadAssets, fsBind_def, fsPure_def,
      Downloader.fsGetInfoDir, hg, hdir, hloop, hL,
      Downloader.saveCacheManifest, Downloader.tryCatchFs,
      Downloader.fsNow, Downloader.fsWriteManifest, hw, hc1, hk1, jsTruthy, hdn]

/-- C1 as the code has it (amended claim): a changed-content cycle clears
the whole cache — previous manifest included — *before* downloading; after
the downloads, a manifest exists iff at least one download succeeded, and
then it contains exactly the successful subset.  In particular a cycle
whose downloads all fail ends with *no* manifest (the cleared cache's
`none`), not with the previously valid one. -/
theorem c1_amended_manifest_lifecycle (pd : String → Int) (now : Api.NowCtx)
    (device : String) (resp : Api.ApiResponse) (fl : Downloader.Faults)
    (st : Display.DisplayState) (assets : List Api.Asset)
    (hfetch : Api.fetchPlaylistResult pd now resp = .ok assets)
    (hne : assets ≠ [])
    (hdir : st.store.cacheDir = true)
    (hg : fl.getInfo = false) (hd : fl.delete = false) (hm : fl.mkdir = false)
    (hw : fl.write = false) (hdev : ¬ device = "") :
    (assets.filterMap (Downloader.expectedLocal fl) = [] →
      (Display.loadContent pd now device true true resp fl st).1.store.manifest
        = none ∧
      (Display.loadContent pd now device true true resp fl st).2
        = .errNoAssetsDownloaded) ∧
    (∀ x xs, assets.filterMap (Downloader.expectedLocal fl) = x :: xs →
      (Display.loadContent pd now device true true resp fl st).1.store.manifest
        = some (.wellFormed
          { assets := x :: xs, timestamp := st.store.clock,
            deviceName := device }) ∧
      (Display.loadContent pd now device true true resp fl st).2
        = .okChanged (x :: xs)) := by
  have hN : assets.isEmpty = false := by
    cases assets with
    | nil => exact absurd rfl hne
    | cons a t => rfl
  have hclear := clearCache_success fl
    ({ st with lastFetchedAssets := assets } : Display.DisplayState).store
    hg hd hm hdir
  obtain ⟨s1, hdl, hc1, hk1, hm1⟩ := downloadAssets_char fl assets device
    { st.store with cacheDir := true, manifest := none, files := [] }
    rfl hg hw hdev
  constructor
  · intro hL
    rw [hL] at hdl
    rw [hL] at hm1
    simp only [if_pos rfl] at hm1
    simp [Display.loadContent, hfetch, hN, hclear, hdl, hm1]
  · intro x xs hL
    rw [hL] at hdl
    rw [hL] at hm1
    rw [if_neg (List.cons_ne_nil x xs)] at hm1
    simp [Display.loadContent, hfetch, hN, hclear, hdl, hm1]

/-- Witness for the amended C1: one image asset, every download failing —
the cycle ends with no manifest and the no-assets-downloaded error. -/
theorem c1_amended_manifest_lifecycle_witness :
    (Display.loadContent (fun _ => 0)
      { epochMs := 0, weekdayShort := "Mon", weekdayLong := "Monday",
        timeString := "12:00:00" }
      "dev" true true
      { playlists := [{ assets :=
          [{ filepath := "a.jpg", filetype := "jpg", time := "5" }] }] }
      { download := fun _ => true }
      { lastFetchedAssets := [], html := none,
        store := { cacheDir := true,
                   manifest := some (.wellFormed
                     { assets := [{ type := .image,
                                    url := "signage_cache/old.jpg",
                                    duration := some 5, name := none }],
                       timestamp := 0, deviceName := "dev" }),
                   files := ["signage_cache/old.jpg"],
                   clock := 1 } }).1.store.manifest = none ∧
    (Display.loadContent (fun _ => 0)
      { epochMs := 0, weekdayShort := "Mon", weekdayLong := "Monday",
        timeString := "12:00:00" }
      "dev" true true
      { playlists := [{ assets :=
          [{ filepath := "a.jpg", filetype := "jpg", time := "5" }] }] }
      { download := fun _ => true }
      { lastFetchedAssets := [], html := none,
        store := { cacheDir := true,
                   manifest := some (.wellFormed
                     { assets := [{ type := .image,
                                    url := "signage_cache/old.jpg",
                                    duration := some 5, name := none }],
                       timestamp := 0, deviceName := "dev" }),
                   files := ["signage_cache/old.jpg"],
                   clock := 1 } }).2 = .errNoAssetsDownloaded := by
  exact (c1_amended_manifest_lifecycle (fun _ => 0)
    { epochMs := 0, weekdayShort := "Mon", weekdayLong := "Monday",
      timeString := "12:00:00" }
    "dev"
    { playlists := [{ assets :=
        [{ filepath := "a.jpg", filetype := "jpg", time := "5" }] }] }
    { download := fun _ => true }
    { lastFetchedAssets := [], html := none,
      store := { cacheDir := true,
                 manifest := some (.wellFormed
                   { assets := [{ type := .image,
                                  url := "signage_cache/old.jpg",
                                  duration := some 5, name := none }],
                     timestamp := 0, deviceName := "dev" }),
                 files := ["signage_cache/old.jpg"],
                 clock := 1 } }
    [{ filepath := "a.jpg", filetype := "jpg", time := "5" }]
    (by decide) (by decide) rfl rfl rfl rfl rfl (by decide)).1 (by decide)

/-- One step preserves the reachable set of the two-caller dedup system. -/
theorem dedup_inv_step (fp : String) (c : Dedup.Config) (b : Bool)
    (h : Dedup.Inv fp c) : Dedup.Inv fp (Dedup.doStep fp c b) := by
  rcases h with h | h | h | h | h | h | h | h | h | h | h | h | h | h | h | h | h <;>
    subst h <;> cases b <;>
    simp [Dedup.Inv, Dedup.doStep, Dedup.stepOf, Dedup.inFlight]

/-- Every schedule keeps the dedup system inside the reachable set. -/
theorem dedup_inv_run (fp : String) :
    ∀ (sched : List Bool) (c : Dedup.Config), Dedup.Inv fp c →
      Dedup.Inv fp (Dedup.run fp sched c) := by
  intro sched
  induction sched with
  | nil => intro c h; exact h
  | cons b rest ih => intro c h; exact ih _ (dedup_inv_step fp c b h)

/-- C6: under every interleaving of two `downloadAndCacheAsset` calls for
the same filepath, the two calls are never simultaneously inside the
download body (at most one download in flight), and when a call executed
its entry check while the other was in flight (the `overlapped` flag),
the completed run has issued exactly one download attempt — the second
caller skipped. -/
theorem c6_download_dedup (fp : String) (sched : List Bool) :
    (¬ ((Dedup.run fp sched Dedup.initConfig).p1 = .download ∧
        (Dedup.run fp sched Dedup.initConfig).p2 = .download)) ∧
    ((Dedup.run fp sched Dedup.initConfig).p1 = .donep →
      (Dedup.run fp sched Dedup.initConfig).p2 = .donep →
      (Dedup.run fp sched Dedup.initConfig).overlapped = true →
      (Dedup.run fp sched Dedup.initConfig).attempts = 1) := by
  have h := dedup_inv_run fp sched Dedup.initConfig (Or.inl rfl)
  rcases h with h | h | h | h | h | h | h | h | h | h | h | h | h | h | h | h | h <;>
    rw [h] <;> simp

/-- Witness for C6: the schedule where caller 2's entry lands while caller
1 is mid-download — one download attempt in total. -/
theorem c6_download_dedup_witness :
    (Dedup.run "a" [true, false, true, true] Dedup.initConfig).attempts = 1 := by
  exact (c6_download_dedup "a" [true, false, true, true]).2
    (by decide) (by decide) (by decide)

/-- C7 (evaluating the current pipeline at the claim's failing input): a
fetched payload with `functions.is_restarting = true` whose content is
unchanged from the previous cycle leaves every piece of local state — the
cache directory, the manifest, the cached files — untouched; the current
`Api.ts` `fetchPlaylist` never reads the flag it declares, so no clearing
of any kind happens. -/
theorem c7_restart_flag_ignored :
    let st0 : Display.DisplayState :=
      { lastFetchedAssets :=
          [{ filepath := "a.jpg", filetype := "jpg", time := "5" }],
        html := some [{ type := .image, url := "signage_cache/a.jpg",
                        duration := some 5, name := none }],
        store := { cacheDir := true,
                   manifest := some (.wellFormed
                     { assets := [{ type := .image,
                                    url := "signage_cache/a.jpg",
                                    duration := some 5, name := none }],
                       timestamp := 0, deviceName := "dev" }),
                   files := ["signage_cache/a.jpg"], clock := 0,
                   dlCount := 1 } }
    let resp : Api.ApiResponse :=
      { playlists := [{ assets :=
          [{ filepath := "a.jpg", filetype := "jpg", time := "5" }] }],
        is_restarting := true }
    resp.is_restarting = true ∧
    Display.loadContent (fun _ => 0)
      { epochMs := 0, weekdayShort := "Mon", weekdayLong := "Monday",
        timeString := "12:00:00" }
      "dev" false true resp { } st0 = (st0, .okUnchanged) := by
  decide

/-- C10: the three public cache operations are total at their interface,
for every store and every combination of filesystem faults: `clearCache`
and `saveCacheManifest` always resolve with unit (so a failed manifest
write is indistinguishable from a successful one to caller of `downloadAssets`), and `getCachedAssets` always resolves — with exactly `[]`
whenever its body failed. -/
theorem c10_cache_ops_total (fl : Downloader.Faults) (s : Downloader.Store)
    (la : List Downloader.LocalAsset) (dn : String) :
    (Downloader.clearCache fl s).2 = .ok () ∧
    (Downloader.saveCacheManifest la dn fl s).2 = .ok () ∧
    (∃ v, (Downloader.getCachedAssets fl s).2 = .ok v) ∧
    ((Downloader.getCachedAssetsBody fl s).2.isOk = false →
      (Downloader.getCachedAssets fl s).2 = .ok []) := by
  refine ⟨?_, ?_, ?_, ?_⟩
  · unfold Downloader.clearCache Downloader.tryCatchFs
    rcases h : (do
        let ex ← Downloader.fsGetInfoDir
        if ex then Downloader.fsDeleteDir
        Downloader.fsMakeDir : Downloader.FsM Unit) fl s with ⟨s1, r⟩
    cases r with
    | ok a => cases a; simp [h]
    | error e => simp [h, fsPure_def]
  · unfold Downloader.saveCacheManifest Downloader.tryCatchFs
    rcases h : (do
        let ts ← Downloader.fsNow
        Downloader.fsWriteManifest
          { assets := la, timestamp := ts, deviceName := dn } :
        Downloader.FsM Unit) fl s with ⟨s1, r⟩
    cases r with
    | ok a => cases a; simp [h]
    | error e => simp [h, fsPure_def]
  · unfold Downloader.getCachedAssets Downloader.tryCatchFs
    rcases h : Downloader.getCachedAssetsBody fl s with ⟨s1, r⟩
    cases r with
    | ok v => exact ⟨v, by simp [h]⟩
    | error e => exact ⟨[], by simp [h, fsPure_def]⟩
  · intro hfail
    unfold Downloader.getCachedAssets Downloader.tryCatchFs
    rcases h : Downloader.getCachedAssetsBody fl s with ⟨s1, r⟩
    cases r with
    | ok v => rw [h] at hfail; simp [Except.isOk, Except.toBool] at hfail
    | error e => simp [h, fsPure_def]

/-- Witness for C10: with a failing read primitive and a present manifest,
the body raises and `getCachedAssets` still resolves with `[]`; `clearCache`
resolves with unit under a failing delete. -/
theorem c10_cache_ops_total_witness :
    (Downloader.getCachedAssets { read := true }
      { cacheDir := true, manifest := some .corrupt, files := [],
        clock := 0 }).2 = .ok [] ∧
    (Downloader.clearCache { delete := true }
      { cacheDir := true, manifest := some .corrupt, files := [],
        clock := 0 }).2 = .ok () := by
  constructor
  · exact (c10_cache_ops_total { read := true }
      { cacheDir := true, manifest := some .corrupt, files := [],
        clock := 0 } [] "").2.2.2 (by decide)
  · exact (c10_cache_ops_total { delete := true }
      { cacheDir := true, manifest := some .corrupt, files := [],
        clock := 0 } [] "").1
